import Mathlib

/-!
Shallow embedding of the day-scoring aggregation and audit pipeline of the
behavior-tracking application for schools: the writers and the totals
recomputation of scripts/data.js (saveMatrixCell, saveComment,
logCustomIncident, recalculateDayTotals, audit, the incident id generator),
the audit context of scripts/auth.js (getAuditContext), and the claims
setter of functions/index.js (setCustomClaims).

Conventions of the embedding: JS numbers that hold matrix scores are
modelled as Int (the data model scores them 0, 1 or 2); the float division
and Math.round of the percentage computation are modelled over the exact
rationals, with Math.round x = the floor of x + 1/2, which is the JS
semantics of rounding half toward positive infinity; a JS object used as a
map is a function into Option; a field that may be absent is an Option; a
firestore document that may be absent is an Option at the lookup layer.
-/

namespace Riley

/-- A recorded matrix cell value: a JS number (integer score), a JS
boolean, or JS null.  An absent cell is none at the lookup layer. -/
inductive CellValue where
  | num (n : Int)
  | bool (b : Bool)
  | null
deriving DecidableEq

/-- JS Number(value) for the values a matrix cell can hold. -/
def CellValue.toNumber : CellValue → Int
  | .num n => n
  | .bool b => if b then 1 else 0
  | .null => 0

/-- JS truthiness of a matrix cell value (used by the checkbox branch
value ? 1 : 0). -/
def CellValue.truthy : CellValue → Bool
  | .num n => if n = 0 then false else true
  | .bool b => b
  | .null => false

/-- One scheduled block of a plan, as stored in plan.schedule: id, display
label, and the boolean morning flag am. -/
structure Period where
  id : String
  label : String
  am : Bool
deriving DecidableEq

/-- One trackable goal of a plan, as stored in plan.goals: id, display
label, and the kind tag (the code tests the strings "stepper" and
"checkbox"). -/
structure Goal where
  id : String
  label : String
  kind : String
deriving DecidableEq

/-- A day matrix: period id, then goal id, to a recorded cell value.  An
absent period map or an absent cell is none (JS undefined). -/
def Matrix : Type := String → Option (String → Option CellValue)

/-- The composite lookup (matrix[period.id] || \x7b\x7d)[goal.id] performed by
the recalculation loop: an absent period map behaves as the empty map. -/
def cellLookup (m : Matrix) (p g : String) : Option CellValue :=
  match m p with
  | some pd => pd g
  | none => none

/-- The matrix with no recorded cell. -/
def emptyMatrix : Matrix := fun _ => none

/-- The merge write of saveMatrixCell at field path matrix.periodId.goalId:
the one cell is set, every other goal of that period and every other period
keep the previous values. -/
def setCell (m : Matrix) (p g : String) (v : CellValue) : Matrix :=
  fun pq =>
    if pq = p then
      some (fun gq => if gq = g then some v else cellLookup m p gq)
    else m pq

/-- The totals object written by recalculateDayTotals: pct always, and
amPct and pmPct only for a plan whose planType includes "AMPM". -/
structure Totals where
  pct : Int
  amPct : Option Int
  pmPct : Option Int
deriving DecidableEq

/-- The six running accumulators of the recalculation loop. -/
structure Acc where
  totalPoints : Int
  totalPossible : Int
  amPoints : Int
  amPossible : Int
  pmPoints : Int
  pmPossible : Int
deriving DecidableEq

/-- The body of the inner loop of recalculateDayTotals for one goal of one
period: skip absent and null cells, then branch on the goal kind, and
within each kind on the period morning flag. -/
def stepGoal (m : Matrix) (p : Period) (acc : Acc) (g : Goal) : Acc :=
  match cellLookup m p.id g.id with
  | none => acc
  | some v =>
    if v = CellValue.null then acc
    else if g.kind = "stepper" then
      let acc1 := { acc with
        totalPoints := acc.totalPoints + v.toNumber,
        totalPossible := acc.totalPossible + 2 }
      if p.am then
        { acc1 with amPoints := acc1.amPoints + v.toNumber,
                    amPossible := acc1.amPossible + 2 }
      else
        { acc1 with pmPoints := acc1.pmPoints + v.toNumber,
                    pmPossible := acc1.pmPossible + 2 }
    else if g.kind = "checkbox" then
      let e : Int := if v.truthy then 1 else 0
      let acc1 := { acc with
        totalPoints := acc.totalPoints + e,
        totalPossible := acc.totalPossible + 1 }
      if p.am then
        { acc1 with amPoints := acc1.amPoints + e,
                    amPossible := acc1.amPossible + 1 }
      else
        { acc1 with pmPoints := acc1.pmPoints + e,
                    pmPossible := acc1.pmPossible + 1 }
    else acc

/-- The inner loop of recalculateDayTotals over plan.goals. -/
def stepPeriod (m : Matrix) (goals : List Goal) (acc : Acc) (p : Period) : Acc :=
  goals.foldl (stepGoal m p) acc

/-- The full double loop of recalculateDayTotals over plan.schedule and
plan.goals, from the all-zero accumulators. -/
def accumulate (sched : List Period) (goals : List Goal) (m : Matrix) : Acc :=
  sched.foldl (stepPeriod m goals) ⟨0, 0, 0, 0, 0, 0⟩

/-- JS Math.round on the exact value: floor of x + 1/2 (half rounds toward
positive infinity). -/
def jsRound (q : ℚ) : Int := ⌊q + 1/2⌋

/-- Round to nearest with ties away from zero, the rounding named by the
specification.  It agrees with jsRound on nonnegative inputs. -/
def roundTiesAway (q : ℚ) : Int :=
  if 0 ≤ q then ⌊q + 1/2⌋ else -⌊-q + 1/2⌋

/-- The percentage expression possible > 0 ? Math.round((points / possible)
* 100) : 0 of recalculateDayTotals. -/
def pctFrom (points possible : Int) : Int :=
  if 0 < possible then jsRound ((points : ℚ) / (possible : ℚ) * 100) else 0

/-- JS String.prototype.includes, on lists of characters. -/
def prefixOfB : List Char → List Char → Bool
  | [], _ => true
  | _ :: _, [] => false
  | a :: as, b :: bs => a = b && prefixOfB as bs

/-- Whether sub occurs as a contiguous run inside l. -/
def containsSubList (sub : List Char) : List Char → Bool
  | [] => prefixOfB sub []
  | c :: cs => prefixOfB sub (c :: cs) || containsSubList sub cs

/-- JS s.includes(sub). -/
def jsIncludes (s sub : String) : Bool :=
  containsSubList sub.toList s.toList

/-- A JS runtime failure surfaced by the pipeline: a TypeError (reading a
property of undefined) or the firestore not-found rejection of updateDoc on
an absent document. -/
inductive JsError where
  | typeError
  | notFound
deriving DecidableEq

/-- The fields of a plan document read by the pipeline: planType (absent
when the stored document lacks the field), the schedule and the goals
(the code defaults both to the empty list when absent, so lists model
them directly). -/
structure PlanDoc where
  planType : Option String
  schedule : List Period
  goals : List Goal

/-- The pure core of recalculateDayTotals on a loaded plan and matrix: run
the accumulation, build pct, then test plan.planType.includes("AMPM") —
which throws a TypeError when the planType field is absent — and attach
amPct and pmPct exactly for AMPM plans. -/
def computeTotals (plan : PlanDoc) (m : Matrix) : Except JsError Totals :=
  let a := accumulate plan.schedule plan.goals m
  let pct := pctFrom a.totalPoints a.totalPossible
  match plan.planType with
  | none => .error .typeError
  | some pt =>
    if jsIncludes pt "AMPM" then
      .ok { pct := pct,
            amPct := some (pctFrom a.amPoints a.amPossible),
            pmPct := some (pctFrom a.pmPoints a.pmPossible) }
    else
      .ok { pct := pct, amPct := none, pmPct := none }

/-! Specification-side accumulation: the (earned, possible) contribution of
every (period, goal) pair, summed over the schedule and goal lists, written
from the words of the specification (a stepper cell contributes the numeric
value and 2, a checkbox cell contributes its truthiness and 1, absent and
null cells contribute to neither side). -/

/-- The (earned, possible) contribution of one cell, given the goal kind. -/
def specCellContrib (kind : String) (c : Option CellValue) : Int × Int :=
  match c with
  | none => (0, 0)
  | some v =>
    if v = CellValue.null then (0, 0)
    else if kind = "stepper" then (v.toNumber, 2)
    else if kind = "checkbox" then ((if v.truthy then 1 else 0), 1)
    else (0, 0)

/-- Points earned, summed over every (period, goal) pair of the given
schedule and goal lists. -/
def specEarned (sched : List Period) (goals : List Goal) (m : Matrix) : Int :=
  (sched.map fun p =>
    (goals.map fun g => (specCellContrib g.kind (cellLookup m p.id g.id)).1).sum).sum

/-- Points possible, summed over every (period, goal) pair of the given
schedule and goal lists. -/
def specPossible (sched : List Period) (goals : List Goal) (m : Matrix) : Int :=
  (sched.map fun p =>
    (goals.map fun g => (specCellContrib g.kind (cellLookup m p.id g.id)).2).sum).sum

/-- Data-model well-typedness of the cells the aggregation visits: a
stepper cell is a number 0, 1 or 2 (or null), a checkbox cell is a boolean
(or null); goals of other kinds are unconstrained. -/
def wellTypedVal (kind : String) (v : CellValue) : Bool :=
  if kind = "stepper" then
    match v with
    | .num n => decide (0 ≤ n ∧ n ≤ 2)
    | .bool _ => false
    | .null => true
  else if kind = "checkbox" then
    match v with
    | .num _ => false
    | .bool _ => true
    | .null => true
  else true

/-- Every cell of the matrix that lies under the plan schedule and goal
lists is well typed for its goal kind. -/
def wellTypedMatrix (sched : List Period) (goals : List Goal) (m : Matrix) : Bool :=
  sched.all fun p => goals.all fun g =>
    match cellLookup m p.id g.id with
    | some v => wellTypedVal g.kind v
    | none => true

/-! The stateful layer: a store scoped to one school, holding the plan
documents, the day documents and the audit log, and the three writers of
the pipeline together with recalculateDayTotals, each returning the new
store, an optional surfaced JS error, and the ordered list of write
effects it performed. -/

/-- The audit context built by getAuditContext and spread into every audit
entry. -/
structure AuditCtx where
  actedBy : String
  asRole : String
  asUserId : String
deriving DecidableEq

/-- The action-specific detail payload of an audit entry, one shape per
writer. -/
inductive AuditDetails where
  | cell (periodId goalId : String) (value : CellValue)
  | comment (role : String) (textLength : Nat)
  | incident (label : String) (source : String) (hasNote : Bool)
deriving DecidableEq

/-- One audit log document: the server timestamp added by audit, the
spread audit context, the action tag, the target path and the details. -/
structure AuditEntry where
  ts : Nat
  actedBy : String
  asRole : String
  asUserId : String
  action : String
  target : String
  details : AuditDetails
deriving DecidableEq

/-- Build the entry that audit(schoolId, \x7b...ctx, action, target,
details\x7d) appends, with the server timestamp ts. -/
def mkAuditEntry (now : Nat) (ctx : AuditCtx) (action target : String)
    (details : AuditDetails) : AuditEntry :=
  { ts := now, actedBy := ctx.actedBy, asRole := ctx.asRole,
    asUserId := ctx.asUserId, action := action, target := target,
    details := details }

/-- The comments structure of a day document: the teacher text and the
per-subject specials texts. -/
structure Comments where
  teacher : Option String
  specials : String → Option String

/-- The comments structure of a freshly created day document. -/
def emptyComments : Comments :=
  { teacher := none, specials := fun _ => none }

/-- One incident record appended to a day. -/
structure Incident where
  id : String
  label : String
  colorHex : String
  note : Option String
  ts : Nat
  source : String
deriving DecidableEq

/-- A day document: matrix, derived totals, comments, incident list, and
the last-modified server timestamp. -/
structure DayDoc where
  matrix : Matrix
  totals : Option Totals
  comments : Comments
  incidents : List Incident
  lastModified : Option Nat

/-- The store scoped to one school: the plan documents, the day documents
keyed by plan id then day key, and the audit log. -/
structure Store where
  plans : String → Option PlanDoc
  days : String → String → Option DayDoc
  auditLog : List AuditEntry

/-- Point update of the day table at one (planId, dayKey) address. -/
def putDay (days : String → String → Option DayDoc) (planId dayKey : String)
    (d : DayDoc) : String → String → Option DayDoc :=
  fun pq kq => if pq = planId ∧ kq = dayKey then some d else days pq kq

/-- One write effect of a pipeline invocation, in the order performed. -/
inductive Effect where
  | persistCell (planId dayKey periodId goalId : String) (value : CellValue)
  | persistTotals (planId dayKey : String) (t : Totals)
  | persistComment (planId dayKey role : String)
  | persistIncidents (planId dayKey : String)
  | auditAppend (e : AuditEntry)

/-- recalculateDayTotals: read the plan (return silently when absent),
read the day (return silently when absent), run the pure totals
computation — which throws a TypeError when the plan lacks a planType
field — and on success write the totals field of the day document. -/
def recalculateDayTotals (planId dayKey : String) (s : Store) :
    Store × Option JsError × List Effect :=
  match s.plans planId with
  | none => (s, none, [])
  | some plan =>
    match s.days planId dayKey with
    | none => (s, none, [])
    | some day =>
      match computeTotals plan day.matrix with
      | .error e => (s, some e, [])
      | .ok t =>
        ({ s with days := putDay s.days planId dayKey { day with totals := some t } },
         none,
         [.persistTotals planId dayKey t])

/-- The merge-on-write of saveMatrixCell on the addressed day document:
set the one matrix cell and lastModified, create the document when
absent, and keep every other field. -/
def mergeCellIntoDay (old : Option DayDoc) (periodId goalId : String)
    (value : CellValue) (now : Nat) : DayDoc :=
  match old with
  | some d =>
    { d with matrix := setCell d.matrix periodId goalId value,
             lastModified := some now }
  | none =>
    { matrix := setCell emptyMatrix periodId goalId value,
      totals := none, comments := emptyComments, incidents := [],
      lastModified := some now }

/-- saveMatrixCell: persist the cell by merge write, recalculate the day
totals, then append the matrix_cell_update audit entry.  A failure of the
recalculation surfaces after the cell write and before the audit write. -/
def saveMatrixCell (schoolId planId dayKey periodId goalId : String)
    (value : CellValue) (ctx : AuditCtx) (now : Nat) (s : Store) :
    Store × Option JsError × List Effect :=
  let day := mergeCellIntoDay (s.days planId dayKey) periodId goalId value now
  let s1 : Store := { s with days := putDay s.days planId dayKey day }
  let tr1 : List Effect := [.persistCell planId dayKey periodId goalId value]
  match recalculateDayTotals planId dayKey s1 with
  | (s2, some e, tr2) => (s2, some e, tr1 ++ tr2)
  | (s2, none, tr2) =>
    let entry := mkAuditEntry now ctx "matrix_cell_update"
      (planId ++ "/" ++ dayKey) (.cell periodId goalId value)
    ({ s2 with auditLog := s2.auditLog ++ [entry] },
     none,
     tr1 ++ tr2 ++ [.auditAppend entry])

/-- saveComment: updateDoc the comments field of the day — updateDoc
rejects with not-found when the day document does not exist — then append
the comment_save audit entry, whose details carry the role and the text
length only. -/
def saveComment (schoolId planId dayKey role text : String) (ctx : AuditCtx)
    (now : Nat) (s : Store) : Store × Option JsError × List Effect :=
  match s.days planId dayKey with
  | none => (s, some JsError.notFound, [])
  | some d =>
    let dq : DayDoc :=
      if role = "teacher" then
        { d with comments := { d.comments with teacher := some text },
                 lastModified := some now }
      else
        { d with comments := { d.comments with
                   specials := fun r => if r = role then some text
                                        else d.comments.specials r },
                 lastModified := some now }
    let entry := mkAuditEntry now ctx "comment_save"
      (planId ++ "/" ++ dayKey) (.comment role text.length)
    ({ s with days := putDay s.days planId dayKey dq,
              auditLog := s.auditLog ++ [entry] },
     none,
     [.persistComment planId dayKey role, .auditAppend entry])

/-- The button descriptor passed to logCustomIncident. -/
structure ButtonDesc where
  id : String
  label : String
  colorHex : String
deriving DecidableEq

/-- JS note || null, on the optional note argument: the empty string is
falsy and stores as null. -/
def jsNoteOrNull (note : Option String) : Option String :=
  match note with
  | some t => if t = "" then none else some t
  | none => none

/-- JS double-negation truthiness of the note argument, logged as
hasNote. -/
def jsHasNote (note : Option String) : Bool :=
  match note with
  | some t => if t = "" then false else true
  | none => false

/-! The incident id generator: inc_ then Date.now() then _ then
Math.random().toString(36).substr(2, 9).  Math.random() yields a double in
[0, 1), modelled as a rational; toString(36) of such a value prints "0"
for zero and otherwise "0." followed by the base-36 digits of the
fractional part (terminating, since every double is a dyadic rational);
substr(2, 9) drops the two leading characters and keeps at most nine. -/

/-- The base-36 digit characters 0-9 then a-z used by JS toString(36). -/
def digitChar36 (d : Nat) : Char :=
  if d < 10 then Char.ofNat (48 + d) else Char.ofNat (87 + d)

/-- The base-36 digits of the fraction num / den (0 ≤ num < den), fuelled;
digit extraction stops when the remaining fraction is zero. -/
def fracDigits36 (den : Nat) : Nat → Nat → List Char
  | _, 0 => []
  | num, fuel + 1 =>
    if num = 0 then []
    else digitChar36 (num * 36 / den) :: fracDigits36 den (num * 36 % den) fuel

/-- JS r.toString(36) for r in [0, 1): "0" for zero, else "0." and the
base-36 expansion of the fraction (a double terminates within 27 digits;
30 units of fuel are ample). -/
def jsToString36Frac (r : ℚ) : String :=
  if r = 0 then "0"
  else "0." ++ String.mk (fracDigits36 r.den r.num.toNat 30)

/-- JS s.substr(start, len). -/
def jsSubstr (s : String) (start len : Nat) : String :=
  String.mk ((s.toList.drop start).take len)

/-- The random suffix of an incident id, for a draw r of the random
source. -/
def incidentSuffix (r : ℚ) : String :=
  jsSubstr (jsToString36Frac r) 2 9

/-- The incident id template literal of logCustomIncident. -/
def incidentId (now : Nat) (r : ℚ) : String :=
  "inc_" ++ toString now ++ "_" ++ incidentSuffix r

/-- The incident object constructed by logCustomIncident. -/
def mkIncident (button : ButtonDesc) (note : Option String) (source : String)
    (now : Nat) (r : ℚ) : Incident :=
  { id := incidentId now r, label := button.label, colorHex := button.colorHex,
    note := jsNoteOrNull note, ts := now, source := source }

/-- logCustomIncident: build the incident, read the current incident list
of the day (empty when the day is absent), merge write the appended list
and lastModified (creating the day when absent, keeping the other fields
otherwise), then append the incident_log audit entry. -/
def logCustomIncident (schoolId planId dayKey : String) (button : ButtonDesc)
    (note : Option String) (source : String) (ctx : AuditCtx) (now : Nat)
    (r : ℚ) (s : Store) : Store × Option JsError × List Effect :=
  let incident := mkIncident button note source now r
  let day : DayDoc :=
    match s.days planId dayKey with
    | some d =>
      { d with incidents := d.incidents ++ [incident], lastModified := some now }
    | none =>
      { matrix := emptyMatrix, totals := none, comments := emptyComments,
        incidents := [] ++ [incident], lastModified := some now }
  let entry := mkAuditEntry now ctx "incident_log"
    (planId ++ "/" ++ dayKey)
    (.incident button.label source (jsHasNote note))
  ({ s with days := putDay s.days planId dayKey day,
            auditLog := s.auditLog ++ [entry] },
   none,
   [.persistIncidents planId dayKey, .auditAppend entry])

/-- Projection of the scorable day state named by the replay claim: the
matrix, the comments and the totals of the addressed day. -/
def dayScoreState (s : Store) (planId dayKey : String) :
    Option (Matrix × Comments × Option Totals) :=
  (s.days planId dayKey).map fun d => (d.matrix, d.comments, d.totals)

/-- The incident list of the addressed day (empty when the day is
absent). -/
def incidentsOf (s : Store) (planId dayKey : String) : List Incident :=
  match s.days planId dayKey with
  | some d => d.incidents
  | none => []

/-! The serverless claims setter of functions/index.js. -/

/-- The decoded token of the calling user: the roles claim, absent when
never set. -/
structure CallerToken where
  roles : Option (List String)

/-- The data argument of setCustomClaims: uid and schoolId strings (falsy
exactly when empty) and the roles argument, none when not an array. -/
structure ClaimsData where
  uid : String
  roles : Option (List String)
  schoolId : String

/-- The HttpsError codes thrown by setCustomClaims. -/
inductive HttpsErrorCode where
  | unauthenticated
  | permissionDenied
  | invalidArgument
  | internal
deriving DecidableEq

/-- The staff document fields written by setCustomClaims. -/
structure StaffDoc where
  roles : Option (List String)
  schoolId : Option String
  claimsUpdatedAt : Option Nat

/-- The backend state touched by setCustomClaims: the custom claims of
each user and the staff documents keyed by school then uid. -/
structure FnState where
  userClaims : String → Option (List String × String)
  staff : String → String → Option StaffDoc

/-- The merge write of setCustomClaims on the staff document: roles,
schoolId and claimsUpdatedAt are set, a missing document is created.  The
merge option only preserves fields outside the modelled ones, so the
previous document does not influence the modelled result. -/
def mergeStaffDoc (old : Option StaffDoc) (roles : List String)
    (schoolId : String) (now : Nat) : StaffDoc :=
  { roles := some roles, schoolId := some schoolId, claimsUpdatedAt := some now }

/-- setCustomClaims: reject unauthenticated callers; let a caller through
when its token roles include admin or when the token has no roles claim at
all (first-admin setup); validate the data argument; then set the custom
claims of the target user and merge write the staff document, returning
the success message.  Every rejection happens before any mutation, so the
state component of a rejected call is the input state. -/
def setCustomClaims (auth : Option CallerToken) (data : ClaimsData)
    (now : Nat) (s : FnState) : FnState × Except HttpsErrorCode String :=
  match auth with
  | none => (s, .error .unauthenticated)
  | some tok =>
    let isAdmin : Bool :=
      match tok.roles with
      | some rs => rs.contains "admin"
      | none => false
    let firstTimeSetup : Bool :=
      match tok.roles with
      | some _ => false
      | none => true
    if !isAdmin && !firstTimeSetup then
      (s, .error .permissionDenied)
    else
      match data.roles with
      | none => (s, .error .invalidArgument)
      | some rs =>
        if data.uid = "" ∨ data.schoolId = "" then
          (s, .error .invalidArgument)
        else
          let s1 : FnState :=
            { userClaims := fun u =>
                if u = data.uid then some (rs, data.schoolId) else s.userClaims u,
              staff := fun sc u =>
                if sc = data.schoolId ∧ u = data.uid then
                  some (mergeStaffDoc (s.staff sc u) rs data.schoolId now)
                else s.staff sc u }
          (s1, .ok "Claims updated successfully")

/-! The audit context builder of scripts/auth.js. -/

/-- The authenticated user record, as far as getAuditContext reads it. -/
structure UserRec where
  uid : String

/-- The cached token claims, as far as getAuditContext reads them. -/
structure ClaimsRec where
  roles : Option (List String)

/-- The process-local imitation state set by startImitate. -/
structure ImitationState where
  targetUid : String
  asRole : String

/-- JS claims?.roles?.[0] || "unknown": the first role when claims and
roles exist, the head is present and truthy, else "unknown". -/
def firstRoleOrUnknown (claims : Option ClaimsRec) : String :=
  match claims with
  | some c =>
    match c.roles with
    | some (r :: _) => if r = "" then "unknown" else r
    | some [] => "unknown"
    | none => "unknown"
  | none => "unknown"

/-- getAuditContext: under imitation, actedBy is the real user uid while
asRole and asUserId come from the imitation state; otherwise all three
fields describe the real user. -/
def getAuditContext (user : UserRec) (claims : Option ClaimsRec)
    (imitationState : Option ImitationState) : AuditCtx :=
  match imitationState with
  | some im =>
    { actedBy := user.uid, asRole := im.asRole, asUserId := im.targetUid }
  | none =>
    { actedBy := user.uid, asRole := firstRoleOrUnknown claims,
      asUserId := user.uid }

/-- The day document produced by one saveMatrixCell invocation at its
address: the merge write of the cell, then the totals update when the plan
exists and the recomputation does not throw. -/
def cellWriteDay (planq : Option PlanDoc) (old : Option DayDoc)
    (periodId goalId : String) (value : CellValue) (now : Nat) : DayDoc :=
  match planq with
  | none => mergeCellIntoDay old periodId goalId value now
  | some plan =>
    match computeTotals plan (mergeCellIntoDay old periodId goalId value now).matrix with
    | .error _ => mergeCellIntoDay old periodId goalId value now
    | .ok t => { mergeCellIntoDay old periodId goalId value now with totals := some t }

/-- Whether a character is a base-36 digit as printed by JS toString(36):
0-9 or a-z. -/
def isBase36Digit (c : Char) : Bool :=
  (48 ≤ c.toNat && c.toNat ≤ 57) || (97 ≤ c.toNat && c.toNat ≤ 122)

/-! Concrete demonstration inputs used by the witness statements. -/

/-- A demo day matrix: period A1 holds a stepper 2 and a checkbox true,
period A2 holds a stepper 1; every other cell is unrecorded. -/
def demoMatrix : Matrix := fun p =>
  if p = "A1" then
    some (fun g =>
      if g = "goal_1" then some (.num 2)
      else if g = "goal_3" then some (.bool true) else none)
  else if p = "A2" then
    some (fun g => if g = "goal_1" then some (.num 1) else none)
  else none

/-- A demo schedule: one morning period and one afternoon period. -/
def demoSchedule : List Period :=
  [{ id := "A1", label := "A", am := true },
   { id := "A2", label := "A", am := false }]

/-- Demo goals: one stepper and one checkbox. -/
def demoGoals : List Goal :=
  [{ id := "goal_1", label := "On Task", kind := "stepper" },
   { id := "goal_3", label := "Respectful", kind := "checkbox" }]

/-- A demo plan with the AM/PM split tag. -/
def demoPlan : PlanDoc :=
  { planType := some "PercentageAMPM", schedule := demoSchedule, goals := demoGoals }

/-- A demo plan without the AM/PM split tag. -/
def demoPlanPct : PlanDoc :=
  { planType := some "Percentage", schedule := demoSchedule, goals := demoGoals }

/-- A demo plan document that lacks the planType field. -/
def demoPlanNoType : PlanDoc :=
  { planType := none, schedule := demoSchedule, goals := demoGoals }

/-- A demo day document holding the demo matrix and no derived state. -/
def demoDay : DayDoc :=
  { matrix := demoMatrix, totals := none, comments := emptyComments,
    incidents := [], lastModified := none }

/-- A demo audit context, as under impersonation. -/
def demoCtx : AuditCtx :=
  { actedBy := "admin_1", asRole := "teacher", asUserId := "teacher_7" }

/-- The store holding no plan, no day and no audit entry. -/
def emptyStore : Store :=
  { plans := fun _ => none, days := fun _ _ => none, auditLog := [] }

/-- A demo store holding the AM/PM demo plan and its demo day. -/
def demoStore : Store :=
  { plans := fun pid => if pid = "plan1" then some demoPlan else none,
    days := fun pid dk =>
      if pid = "plan1" ∧ dk = "2026-10-10" then some demoDay else none,
    auditLog := [] }

/-- A demo store whose only plan lacks the planType field. -/
def demoStoreNoType : Store :=
  { plans := fun pid => if pid = "plan1" then some demoPlanNoType else none,
    days := fun _ _ => none, auditLog := [] }

/-- A demo quick-log button. -/
def demoButton : ButtonDesc :=
  { id := "btn_1", label := "Great Job!", colorHex := "#4CAF50" }

/-- The backend state holding no custom claims and no staff document. -/
def demoFnState : FnState :=
  { userClaims := fun _ => none, staff := fun _ _ => none }

/-! Bridge lemmas between the accumulation loop of recalculateDayTotals
and the specification-side pair summation. -/

/-- The earned contribution of one (period, goal) pair. -/
def goalEarn (m : Matrix) (p : Period) (g : Goal) : Int :=
  (specCellContrib g.kind (cellLookup m p.id g.id)).1

/-- The possible contribution of one (period, goal) pair. -/
def goalPoss (m : Matrix) (p : Period) (g : Goal) : Int :=
  (specCellContrib g.kind (cellLookup m p.id g.id)).2

/-- The earned contribution of one period over a list of goals. -/
def periodEarn (m : Matrix) (goals : List Goal) (p : Period) : Int :=
  (goals.map fun g => goalEarn m p g).sum

/-- The possible contribution of one period over a list of goals. -/
def periodPoss (m : Matrix) (goals : List Goal) (p : Period) : Int :=
  (goals.map fun g => goalPoss m p g).sum

theorem periodEarn_cons (m : Matrix) (g : Goal) (gs : List Goal) (p : Period) :
    periodEarn m (g :: gs) p = goalEarn m p g + periodEarn m gs p := by
  simp [periodEarn]

theorem periodPoss_cons (m : Matrix) (g : Goal) (gs : List Goal) (p : Period) :
    periodPoss m (g :: gs) p = goalPoss m p g + periodPoss m gs p := by
  simp [periodPoss]

theorem specEarned_cons (p : Period) (ps : List Period) (goals : List Goal)
    (m : Matrix) :
    specEarned (p :: ps) goals m = periodEarn m goals p + specEarned ps goals m := by
  simp [specEarned, periodEarn, goalEarn]

theorem specPossible_cons (p : Period) (ps : List Period) (goals : List Goal)
    (m : Matrix) :
    specPossible (p :: ps) goals m = periodPoss m goals p + specPossible ps goals m := by
  simp [specPossible, periodPoss, goalPoss]

theorem stepGoal_eq (m : Matrix) (p : Period) (acc : Acc) (g : Goal) :
    stepGoal m p acc g =
      { totalPoints := acc.totalPoints + goalEarn m p g,
        totalPossible := acc.totalPossible + goalPoss m p g,
        amPoints := acc.amPoints + (if p.am then goalEarn m p g else 0),
        amPossible := acc.amPossible + (if p.am then goalPoss m p g else 0),
        pmPoints := acc.pmPoints + (if p.am then 0 else goalEarn m p g),
        pmPossible := acc.pmPossible + (if p.am then 0 else goalPoss m p g) } := by
  cases h : cellLookup m p.id g.id with
  | none => simp [stepGoal, goalEarn, goalPoss, specCellContrib, h]
  | some v =>
    by_cases hn : v = CellValue.null
    · simp [stepGoal, goalEarn, goalPoss, specCellContrib, h, hn]
    · by_cases hs : g.kind = "stepper"
      · by_cases ha : p.am <;>
          simp [stepGoal, goalEarn, goalPoss, specCellContrib, h, hn, hs, ha]
      · by_cases hc : g.kind = "checkbox"
        · by_cases ha : p.am <;>
            simp [stepGoal, goalEarn, goalPoss, specCellContrib, h, hn, hs, hc, ha]
        · simp [stepGoal, goalEarn, goalPoss, specCellContrib, h, hn, hs, hc]

theorem foldl_goals (m : Matrix) (p : Period) (goals : List Goal) :
    ∀ acc : Acc,
      goals.foldl (stepGoal m p) acc =
        { totalPoints := acc.totalPoints + periodEarn m goals p,
          totalPossible := acc.totalPossible + periodPoss m goals p,
          amPoints := acc.amPoints + (if p.am then periodEarn m goals p else 0),
          amPossible := acc.amPossible + (if p.am then periodPoss m goals p else 0),
          pmPoints := acc.pmPoints + (if p.am then 0 else periodEarn m goals p),
          pmPossible := acc.pmPossible + (if p.am then 0 else periodPoss m goals p) } := by
  induction goals with
  | nil => intro acc; simp [periodEarn, periodPoss]
  | cons g gs ih =>
    intro acc
    rw [List.foldl_cons, ih, stepGoal_eq, periodEarn_cons, periodPoss_cons]
    by_cases ha : p.am <;> simp [ha, Acc.mk.injEq] <;> omega

theorem foldl_sched (m : Matrix) (goals : List Goal) (sched : List Period) :
    ∀ acc : Acc,
      sched.foldl (stepPeriod m goals) acc =
        { totalPoints := acc.totalPoints + specEarned sched goals m,
          totalPossible := acc.totalPossible + specPossible sched goals m,
          amPoints := acc.amPoints +
            specEarned (sched.filter fun p => p.am) goals m,
          amPossible := acc.amPossible +
            specPossible (sched.filter fun p => p.am) goals m,
          pmPoints := acc.pmPoints +
            specEarned (sched.filter fun p => !p.am) goals m,
          pmPossible := acc.pmPossible +
            specPossible (sched.filter fun p => !p.am) goals m } := by
  induction sched with
  | nil => intro acc; simp [specEarned, specPossible]
  | cons p ps ih =>
    intro acc
    rw [List.foldl_cons]
    show ps.foldl (stepPeriod m goals) (stepPeriod m goals acc p) = _
    rw [ih]
    unfold stepPeriod
    rw [foldl_goals]
    by_cases ha : p.am <;>
      simp [ha, List.filter_cons, specEarned_cons, specPossible_cons,
        Acc.mk.injEq] <;>
      omega

theorem accumulate_eq (sched : List Period) (goals : List Goal) (m : Matrix) :
    accumulate sched goals m =
      { totalPoints := specEarned sched goals m,
        totalPossible := specPossible sched goals m,
        amPoints := specEarned (sched.filter fun p => p.am) goals m,
        amPossible := specPossible (sched.filter fun p => p.am) goals m,
        pmPoints := specEarned (sched.filter fun p => !p.am) goals m,
        pmPossible := specPossible (sched.filter fun p => !p.am) goals m } := by
  unfold accumulate
  rw [foldl_sched]
  simp

/-- Workhorse description of computeTotals when planType is present. -/
theorem computeTotals_eq (plan : PlanDoc) (m : Matrix) (pt : String)
    (h : plan.planType = some pt) :
    computeTotals plan m =
      .ok { pct := pctFrom (specEarned plan.schedule plan.goals m)
                     (specPossible plan.schedule plan.goals m),
            amPct := if jsIncludes pt "AMPM" then
                some (pctFrom
                  (specEarned (plan.schedule.filter fun p => p.am) plan.goals m)
                  (specPossible (plan.schedule.filter fun p => p.am) plan.goals m))
              else none,
            pmPct := if jsIncludes pt "AMPM" then
                some (pctFrom
                  (specEarned (plan.schedule.filter fun p => !p.am) plan.goals m)
                  (specPossible (plan.schedule.filter fun p => !p.am) plan.goals m))
              else none } := by
  unfold computeTotals
  rw [h, accumulate_eq]
  by_cases hi : jsIncludes pt "AMPM" <;> simp [hi]

theorem computeTotals_planType_absent (plan : PlanDoc) (m : Matrix)
    (h : plan.planType = none) :
    computeTotals plan m = .error JsError.typeError := by
  unfold computeTotals
  rw [h]

theorem specEarned_nonneg (sched : List Period) (goals : List Goal) (m : Matrix)
    (hwt : wellTypedMatrix sched goals m = true) :
    0 ≤ specEarned sched goals m := by
  unfold specEarned
  apply List.sum_nonneg
  intro x hx
  rw [List.mem_map] at hx
  obtain ⟨p, hp, rfl⟩ := hx
  apply List.sum_nonneg
  intro y hy
  rw [List.mem_map] at hy
  obtain ⟨g, hg, rfl⟩ := hy
  unfold wellTypedMatrix at hwt
  rw [List.all_eq_true] at hwt
  have hg2 := hwt p hp
  rw [List.all_eq_true] at hg2
  have hcell := hg2 g hg
  cases hc : cellLookup m p.id g.id with
  | none => simp [specCellContrib, hc]
  | some v =>
    rw [hc] at hcell
    by_cases hn : v = CellValue.null
    · simp [specCellContrib, hc, hn]
    · by_cases hs : g.kind = "stepper"
      · cases v with
        | num n =>
          have : (0 ≤ n ∧ n ≤ 2) := by
            rw [hs] at hcell
            simpa [wellTypedVal] using hcell
          simp [specCellContrib, hc, hn, hs, CellValue.toNumber]
          exact this.1
        | bool b =>
          simp [specCellContrib, hc, hn, hs, CellValue.toNumber]
          split <;> simp
        | null => exact absurd rfl hn
      · by_cases hck : g.kind = "checkbox"
        · simp [specCellContrib, hc, hn, hs, hck]
          split <;> simp
        · simp [specCellContrib, hc, hn, hs, hck]

theorem pctFrom_eq_roundTiesAway (e p : Int) (he : 0 ≤ e) :
    pctFrom e p =
      if 0 < p then roundTiesAway (100 * (e : ℚ) / (p : ℚ)) else 0 := by
  unfold pctFrom
  by_cases hp : 0 < p
  · have hq : (0 : ℚ) ≤ 100 * (e : ℚ) / (p : ℚ) := by
      apply div_nonneg
      · positivity
      · exact_mod_cast hp.le
    have harg : (e : ℚ) / (p : ℚ) * 100 = 100 * (e : ℚ) / (p : ℚ) := by ring
    simp only [hp, if_true, jsRound, roundTiesAway, hq, harg]
  · simp [hp]

/-! Helper lemmas about the store primitives and saveMatrixCell. -/

theorem putDay_same (days : String → String → Option DayDoc)
    (planId dayKey : String) (d : DayDoc) :
    putDay days planId dayKey d planId dayKey = some d := by
  simp [putDay]

theorem cellLookup_setCell (m : Matrix) (p g pq gq : String) (v : CellValue) :
    cellLookup (setCell m p g v) pq gq =
      if pq = p then (if gq = g then some v else cellLookup m p gq)
      else cellLookup m pq gq := by
  by_cases hp : pq = p
  · simp [cellLookup, setCell, hp]
  · simp [cellLookup, setCell, hp]

theorem setCell_idem (m : Matrix) (p g : String) (v : CellValue) :
    setCell (setCell m p g v) p g v = setCell m p g v := by
  funext pq
  by_cases hp : pq = p
  · subst hp
    show (if pq = pq then
        some (fun gq => if gq = g then some v else cellLookup (setCell m pq g v) pq gq)
      else setCell m pq g v pq) = setCell m pq g v pq
    rw [if_pos rfl]
    unfold setCell
    rw [if_pos rfl]
    congr 1
    funext gq
    by_cases hg : gq = g
    · simp [hg]
    · simp [hg, cellLookup]
  · show (if pq = p then
        some (fun gq => if gq = g then some v else cellLookup (setCell m p g v) p gq)
      else setCell m p g v pq) = setCell m p g v pq
    rw [if_neg hp]

theorem mergeCellIntoDay_matrix (old : Option DayDoc) (p g : String)
    (v : CellValue) (now : Nat) :
    (mergeCellIntoDay old p g v now).matrix =
      setCell (match old with | some d => d.matrix | none => emptyMatrix) p g v := by
  cases old <;> simp [mergeCellIntoDay]

theorem mergeCellIntoDay_lastModified (old : Option DayDoc) (p g : String)
    (v : CellValue) (now : Nat) :
    (mergeCellIntoDay old p g v now).lastModified = some now := by
  cases old <;> simp [mergeCellIntoDay]

theorem mergeCellIntoDay_replay (X : DayDoc) (Y : Matrix) (p g : String)
    (v : CellValue) (now : Nat)
    (hm : X.matrix = setCell Y p g v) (hl : X.lastModified = some now) :
    mergeCellIntoDay (some X) p g v now = X := by
  show { X with matrix := setCell X.matrix p g v, lastModified := some now } = X
  rw [hm, setCell_idem, ← hm, ← hl]

theorem cellWriteDay_matrix (planq : Option PlanDoc) (old : Option DayDoc)
    (p g : String) (v : CellValue) (now : Nat) :
    (cellWriteDay planq old p g v now).matrix =
      (mergeCellIntoDay old p g v now).matrix := by
  cases planq with
  | none => rfl
  | some plan =>
    cases h : computeTotals plan (mergeCellIntoDay old p g v now).matrix with
    | error e => simp [cellWriteDay, h]
    | ok t => simp [cellWriteDay, h]

theorem cellWriteDay_comments (planq : Option PlanDoc) (old : Option DayDoc)
    (p g : String) (v : CellValue) (now : Nat) :
    (cellWriteDay planq old p g v now).comments =
      (mergeCellIntoDay old p g v now).comments := by
  cases planq with
  | none => rfl
  | some plan =>
    cases h : computeTotals plan (mergeCellIntoDay old p g v now).matrix with
    | error e => simp [cellWriteDay, h]
    | ok t => simp [cellWriteDay, h]

theorem cellWriteDay_lastModified (planq : Option PlanDoc) (old : Option DayDoc)
    (p g : String) (v : CellValue) (now : Nat) :
    (cellWriteDay planq old p g v now).lastModified = some now := by
  cases planq with
  | none => exact mergeCellIntoDay_lastModified old p g v now
  | some plan =>
    cases h : computeTotals plan (mergeCellIntoDay old p g v now).matrix with
    | error e => simp [cellWriteDay, h, mergeCellIntoDay_lastModified]
    | ok t => simp [cellWriteDay, h, mergeCellIntoDay_lastModified]

/-- A saveMatrixCell invocation leaves the plans table unchanged and sets
its addressed day to the cellWriteDay result. -/
theorem saveMatrixCell_run (schoolId planId dayKey periodId goalId : String)
    (value : CellValue) (ctx : AuditCtx) (now : Nat) (s : Store) :
    (saveMatrixCell schoolId planId dayKey periodId goalId value ctx now s).1.plans
      = s.plans ∧
    (saveMatrixCell schoolId planId dayKey periodId goalId value ctx now s).1.days
        planId dayKey
      = some (cellWriteDay (s.plans planId) (s.days planId dayKey)
          periodId goalId value now) := by
  unfold saveMatrixCell
  cases hp : s.plans planId with
  | none => simp [recalculateDayTotals, hp, putDay_same, cellWriteDay]
  | some plan =>
    cases hct : computeTotals plan
        (mergeCellIntoDay (s.days planId dayKey) periodId goalId value now).matrix with
    | error e =>
      simp [recalculateDayTotals, hp, putDay_same, hct, cellWriteDay]
    | ok t =>
      simp [recalculateDayTotals, hp, putDay_same, hct, cellWriteDay, putDay]

/-- Replaying the day-level effect of saveMatrixCell with identical
arguments reproduces the same day document. -/
theorem cellWriteDay_idem (planq : Option PlanDoc) (old : Option DayDoc)
    (p g : String) (v : CellValue) (now : Nat) :
    cellWriteDay planq (some (cellWriteDay planq old p g v now)) p g v now =
      cellWriteDay planq old p g v now := by
  have hmerge :
      mergeCellIntoDay (some (cellWriteDay planq old p g v now)) p g v now =
        cellWriteDay planq old p g v now := by
    apply mergeCellIntoDay_replay _
      (match old with | some d => d.matrix | none => emptyMatrix)
    · rw [cellWriteDay_matrix, mergeCellIntoDay_matrix]
    · exact cellWriteDay_lastModified planq old p g v now
  cases planq with
  | none => simpa [cellWriteDay] using hmerge
  | some plan =>
    rw [show cellWriteDay (some plan)
          (some (cellWriteDay (some plan) old p g v now)) p g v now =
        (match computeTotals plan
            (mergeCellIntoDay (some (cellWriteDay (some plan) old p g v now))
              p g v now).matrix with
         | .error _ =>
            mergeCellIntoDay (some (cellWriteDay (some plan) old p g v now))
              p g v now
         | .ok t =>
            { mergeCellIntoDay (some (cellWriteDay (some plan) old p g v now))
                p g v now with totals := some t }) from rfl]
    rw [hmerge, cellWriteDay_matrix]
    cases hct : computeTotals plan (mergeCellIntoDay old p g v now).matrix with
    | error e => simp [cellWriteDay, hct]
    | ok t =>
      have hd1 : cellWriteDay (some plan) old p g v now =
          { mergeCellIntoDay old p g v now with totals := some t } := by
        simp [cellWriteDay, hct]
      rw [hd1]

/-! Helper lemmas about the incident id generator. -/

theorem digitChar36_valid : ∀ d : Fin 36, isBase36Digit (digitChar36 d.val) = true := by
  decide

theorem fracDigits36_all_valid (den : Nat) (hden : 0 < den) :
    ∀ (fuel num : Nat), num < den →
      (fracDigits36 den num fuel).all isBase36Digit = true := by
  intro fuel
  induction fuel with
  | zero => intro num h; rfl
  | succ n ih =>
    intro num h
    unfold fracDigits36
    by_cases h0 : num = 0
    · simp [h0]
    · simp only [h0, if_false]
      rw [List.all_cons, Bool.and_eq_true]
      constructor
      · have hd : num * 36 / den < 36 := by
          apply Nat.div_lt_of_lt_mul
          have : num * 36 < den * 36 := by omega
          omega
        exact digitChar36_valid ⟨num * 36 / den, hd⟩
      · exact ih (num * 36 % den) (Nat.mod_lt _ hden)

theorem incidentSuffix_length_le (r : ℚ) : (incidentSuffix r).length ≤ 9 := by
  show ((((jsToString36Frac r).toList.drop 2).take 9)).length ≤ 9
  rw [List.length_take]
  exact min_le_left _ _

theorem incidentSuffix_digits (r : ℚ) (h0 : 0 ≤ r) (h1 : r < 1) :
    (incidentSuffix r).toList.all isBase36Digit = true := by
  unfold incidentSuffix jsSubstr jsToString36Frac
  by_cases hr : r = 0
  · simp [hr]
  · simp only [hr, if_false]
    have hnum : r.num.toNat < r.den := by
      have h2 : r.num < (r.den : Int) := Rat.lt_one_iff_num_lt_denom.mp h1
      have h3 : 0 ≤ r.num := Rat.num_nonneg.mpr h0
      omega
    have hall := fracDigits36_all_valid r.den r.den_pos 30 r.num.toNat hnum
    have hdrop :
        (("0." ++ String.mk (fracDigits36 r.den r.num.toNat 30)).toList.drop 2)
          = fracDigits36 r.den r.num.toNat 30 := rfl
    rw [show (String.mk ((("0." ++ String.mk (fracDigits36 r.den r.num.toNat 30)).toList.drop 2).take 9)).toList
          = ((("0." ++ String.mk (fracDigits36 r.den r.num.toNat 30)).toList.drop 2).take 9) from rfl]
    rw [hdrop]
    rw [List.all_eq_true] at hall ⊢
    intro c hc
    exact hall c (List.mem_of_mem_take hc)

/-! Success and failure characterizations of a full saveMatrixCell run. -/

theorem saveMatrixCell_success (schoolId planId dayKey periodId goalId : String)
    (value : CellValue) (ctx : AuditCtx) (now : Nat) (s : Store)
    (plan : PlanDoc) (t : Totals)
    (hp : s.plans planId = some plan)
    (hct : computeTotals plan
      (mergeCellIntoDay (s.days planId dayKey) periodId goalId value now).matrix
        = .ok t) :
    saveMatrixCell schoolId planId dayKey periodId goalId value ctx now s =
      ({ plans := s.plans,
         days := putDay
           (putDay s.days planId dayKey
             (mergeCellIntoDay (s.days planId dayKey) periodId goalId value now))
           planId dayKey
           { mergeCellIntoDay (s.days planId dayKey) periodId goalId value now with
               totals := some t },
         auditLog := s.auditLog ++ [mkAuditEntry now ctx "matrix_cell_update"
           (planId ++ "/" ++ dayKey) (.cell periodId goalId value)] },
       none,
       [.persistCell planId dayKey periodId goalId value,
        .persistTotals planId dayKey t,
        .auditAppend (mkAuditEntry now ctx "matrix_cell_update"
          (planId ++ "/" ++ dayKey) (.cell periodId goalId value))]) := by
  unfold saveMatrixCell
  simp only [recalculateDayTotals, hp, putDay_same, hct]
  rfl

theorem saveMatrixCell_throw (schoolId planId dayKey periodId goalId : String)
    (value : CellValue) (ctx : AuditCtx) (now : Nat) (s : Store)
    (plan : PlanDoc)
    (hp : s.plans planId = some plan) (hnt : plan.planType = none) :
    saveMatrixCell schoolId planId dayKey periodId goalId value ctx now s =
      ({ plans := s.plans,
         days := putDay s.days planId dayKey
           (mergeCellIntoDay (s.days planId dayKey) periodId goalId value now),
         auditLog := s.auditLog },
       some JsError.typeError,
       [.persistCell planId dayKey periodId goalId value]) := by
  unfold saveMatrixCell
  simp only [recalculateDayTotals, hp, putDay_same,
    computeTotals_planType_absent _ _ hnt]
  rfl

/-! The claim theorems. -/

/-- C1: for every plan (with a planType string, per the data model) and
every data-model-typed day matrix, the recomputed Totals.pct equals the
round-half-up (ties away from zero) of 100 * earned / possible, where
earned and possible sum, over every (period, goal) pair whose cell is
present and non-null, the stepper contribution (numeric value, 2) and the
checkbox contribution (1 if truthy else 0, 1); absent and null cells
contribute to neither side, and pct = 0 whenever possible = 0 (the result
is an integer in every case, never NaN or undefined). -/
theorem c1_recomputed_pct_is_round_half_up (plan : PlanDoc) (m : Matrix)
    (pt : String) (hpt : plan.planType = some pt)
    (hwt : wellTypedMatrix plan.schedule plan.goals m = true) :
    ∃ t : Totals, computeTotals plan m = .ok t ∧
      t.pct =
        (if 0 < specPossible plan.schedule plan.goals m then
          roundTiesAway (100 * (specEarned plan.schedule plan.goals m : ℚ) /
            (specPossible plan.schedule plan.goals m : ℚ))
        else 0) := by
  refine ⟨_, computeTotals_eq plan m pt hpt, ?_⟩
  exact pctFrom_eq_roundTiesAway _ _
    (specEarned_nonneg plan.schedule plan.goals m hwt)

/-- Witness for C1 at the demo plan and matrix. -/
theorem c1_recomputed_pct_is_round_half_up_witness :
    demoPlan.planType = some "PercentageAMPM" ∧
    wellTypedMatrix demoPlan.schedule demoPlan.goals demoMatrix = true ∧
    (∃ t : Totals, computeTotals demoPlan demoMatrix = .ok t ∧
      t.pct =
        (if 0 < specPossible demoPlan.schedule demoPlan.goals demoMatrix then
          roundTiesAway
            (100 * (specEarned demoPlan.schedule demoPlan.goals demoMatrix : ℚ) /
              (specPossible demoPlan.schedule demoPlan.goals demoMatrix : ℚ))
        else 0)) :=
  ⟨rfl, by decide,
    c1_recomputed_pct_is_round_half_up demoPlan demoMatrix "PercentageAMPM"
      rfl (by decide)⟩

/-- C2: for a plan whose planType tag includes "AMPM", the recomputed
totals carry amPct computed purely from the periods whose morning flag is
true and pmPct purely from the periods whose morning flag is false, each
through the same accumulation and pct formula as the overall pct; for a
plan without the tag the totals carry no amPct and no pmPct. -/
theorem c2_ampm_partition (plan : PlanDoc) (m : Matrix) (pt : String)
    (hpt : plan.planType = some pt) :
    (jsIncludes pt "AMPM" = true →
      ∃ t : Totals, computeTotals plan m = .ok t ∧
        t.pct = pctFrom (specEarned plan.schedule plan.goals m)
          (specPossible plan.schedule plan.goals m) ∧
        t.amPct = some (pctFrom
          (specEarned (plan.schedule.filter fun p => p.am) plan.goals m)
          (specPossible (plan.schedule.filter fun p => p.am) plan.goals m)) ∧
        t.pmPct = some (pctFrom
          (specEarned (plan.schedule.filter fun p => !p.am) plan.goals m)
          (specPossible (plan.schedule.filter fun p => !p.am) plan.goals m))) ∧
    (jsIncludes pt "AMPM" = false →
      ∃ t : Totals, computeTotals plan m = .ok t ∧
        t.amPct = none ∧ t.pmPct = none) := by
  constructor
  · intro hi
    exact ⟨_, computeTotals_eq plan m pt hpt, by simp, by simp [hi], by simp [hi]⟩
  · intro hi
    exact ⟨_, computeTotals_eq plan m pt hpt, by simp [hi], by simp [hi]⟩

/-- C3: a recordCell invocation on a well-formed address (the plan exists
and has a planType string) performs exactly three side effects, in the
order cell persistence, totals recomputation, audit append; the appended
entry is tagged matrix_cell_update and carries the period, goal and value
detail; the invocation completes without error only after all three. -/
theorem c3_persist_then_aggregate_then_audit
    (schoolId planId dayKey periodId goalId : String) (value : CellValue)
    (ctx : AuditCtx) (now : Nat) (s : Store) (plan : PlanDoc) (pt : String)
    (hp : s.plans planId = some plan) (hpt : plan.planType = some pt) :
    ∃ t : Totals,
      (saveMatrixCell schoolId planId dayKey periodId goalId value ctx now s).2.2 =
        [Effect.persistCell planId dayKey periodId goalId value,
         Effect.persistTotals planId dayKey t,
         Effect.auditAppend (mkAuditEntry now ctx "matrix_cell_update"
           (planId ++ "/" ++ dayKey) (AuditDetails.cell periodId goalId value))] ∧
      (saveMatrixCell schoolId planId dayKey periodId goalId value ctx now s).2.1 =
        none ∧
      (saveMatrixCell schoolId planId dayKey periodId goalId value ctx now s).1.auditLog =
        s.auditLog ++ [mkAuditEntry now ctx "matrix_cell_update"
          (planId ++ "/" ++ dayKey) (AuditDetails.cell periodId goalId value)] := by
  obtain ⟨t, ht⟩ : ∃ t, computeTotals plan
      (mergeCellIntoDay (s.days planId dayKey) periodId goalId value now).matrix
        = .ok t :=
    ⟨_, computeTotals_eq _ _ pt hpt⟩
  refine ⟨t, ?_, ?_, ?_⟩ <;>
    rw [saveMatrixCell_success schoolId planId dayKey periodId goalId value
      ctx now s plan t hp ht]

/-- Witness for C3 at the demo store. -/
theorem c3_persist_then_aggregate_then_audit_witness :
    ∃ t : Totals,
      (saveMatrixCell "school_001" "plan1" "2026-10-10" "A1" "goal_1"
        (.num 1) demoCtx 5 demoStore).2.2 =
        [Effect.persistCell "plan1" "2026-10-10" "A1" "goal_1" (.num 1),
         Effect.persistTotals "plan1" "2026-10-10" t,
         Effect.auditAppend (mkAuditEntry 5 demoCtx "matrix_cell_update"
           ("plan1" ++ "/" ++ "2026-10-10")
           (AuditDetails.cell "A1" "goal_1" (.num 1)))] ∧
      (saveMatrixCell "school_001" "plan1" "2026-10-10" "A1" "goal_1"
        (.num 1) demoCtx 5 demoStore).2.1 = none ∧
      (saveMatrixCell "school_001" "plan1" "2026-10-10" "A1" "goal_1"
        (.num 1) demoCtx 5 demoStore).1.auditLog =
        demoStore.auditLog ++ [mkAuditEntry 5 demoCtx "matrix_cell_update"
          ("plan1" ++ "/" ++ "2026-10-10")
          (AuditDetails.cell "A1" "goal_1" (.num 1))] :=
  c3_persist_then_aggregate_then_audit "school_001" "plan1" "2026-10-10"
    "A1" "goal_1" (.num 1) demoCtx 5 demoStore demoPlan "PercentageAMPM"
    (by rfl) rfl

/-- C10: the totals recomputation is total exactly under the precondition
that the plan document has a planType string: with it the pure computation
always returns ok, while a saveMatrixCell against an existing plan lacking
the field surfaces a TypeError after the cell value is persisted, so the
trace holds only the cell write, the audit log is unchanged, and the
addressed day keeps its previous totals while holding the new cell. -/
theorem c10_aggregation_total_iff_planType
    (plan1 : PlanDoc) (m1 : Matrix) (pt : String)
    (schoolId planId dayKey periodId goalId : String) (value : CellValue)
    (ctx : AuditCtx) (now : Nat) (s : Store) (plan2 : PlanDoc)
    (hok : plan1.planType = some pt)
    (hp : s.plans planId = some plan2) (hnt : plan2.planType = none) :
    (∃ t : Totals, computeTotals plan1 m1 = .ok t) ∧
    (saveMatrixCell schoolId planId dayKey periodId goalId value ctx now s).2.1 =
      some JsError.typeError ∧
    (saveMatrixCell schoolId planId dayKey periodId goalId value ctx now s).2.2 =
      [Effect.persistCell planId dayKey periodId goalId value] ∧
    (saveMatrixCell schoolId planId dayKey periodId goalId value ctx now s).1.auditLog =
      s.auditLog ∧
    (saveMatrixCell schoolId planId dayKey periodId goalId value ctx now s).1.days
        planId dayKey =
      some (mergeCellIntoDay (s.days planId dayKey) periodId goalId value now) ∧
    (mergeCellIntoDay (s.days planId dayKey) periodId goalId value now).totals =
      (s.days planId dayKey).bind DayDoc.totals ∧
    cellLookup (mergeCellIntoDay (s.days planId dayKey) periodId goalId value now).matrix
      periodId goalId = some value := by
  have hrun := saveMatrixCell_throw schoolId planId dayKey periodId goalId
    value ctx now s plan2 hp hnt
  refine ⟨⟨_, computeTotals_eq plan1 m1 pt hok⟩, ?_, ?_, ?_, ?_, ?_, ?_⟩
  · rw [hrun]
  · rw [hrun]
  · rw [hrun]
  · rw [hrun]
    exact putDay_same _ _ _ _
  · cases hd : s.days planId dayKey <;> simp [mergeCellIntoDay, hd]
  · rw [mergeCellIntoDay_matrix, cellLookup_setCell]
    simp

/-- Witness for C10 at the demo plans and the typeless demo store. -/
theorem c10_aggregation_total_iff_planType_witness :
    (∃ t : Totals, computeTotals demoPlan demoMatrix = .ok t) ∧
    (saveMatrixCell "school_001" "plan1" "2026-10-10" "A1" "goal_1"
      (.num 2) demoCtx 5 demoStoreNoType).2.1 = some JsError.typeError ∧
    (saveMatrixCell "school_001" "plan1" "2026-10-10" "A1" "goal_1"
      (.num 2) demoCtx 5 demoStoreNoType).2.2 =
      [Effect.persistCell "plan1" "2026-10-10" "A1" "goal_1" (.num 2)] ∧
    (saveMatrixCell "school_001" "plan1" "2026-10-10" "A1" "goal_1"
      (.num 2) demoCtx 5 demoStoreNoType).1.auditLog = demoStoreNoType.auditLog ∧
    (saveMatrixCell "school_001" "plan1" "2026-10-10" "A1" "goal_1"
      (.num 2) demoCtx 5 demoStoreNoType).1.days "plan1" "2026-10-10" =
      some (mergeCellIntoDay (demoStoreNoType.days "plan1" "2026-10-10")
        "A1" "goal_1" (.num 2) 5) ∧
    (mergeCellIntoDay (demoStoreNoType.days "plan1" "2026-10-10")
      "A1" "goal_1" (.num 2) 5).totals =
      (demoStoreNoType.days "plan1" "2026-10-10").bind DayDoc.totals ∧
    cellLookup (mergeCellIntoDay (demoStoreNoType.days "plan1" "2026-10-10")
      "A1" "goal_1" (.num 2) 5).matrix "A1" "goal_1" = some (.num 2) :=
  c10_aggregation_total_iff_planType demoPlan demoMatrix "PercentageAMPM"
    "school_001" "plan1" "2026-10-10" "A1" "goal_1" (.num 2) demoCtx 5
    demoStoreNoType demoPlanNoType rfl (by rfl) rfl

/-- C4 counterexample: recordComment addressed at a Day that does not
exist does not succeed and does not create the Day — saveComment uses
updateDoc, which rejects with not-found, leaving the store untouched. -/
theorem c4_counterexample :
    (saveComment "school_001" "plan1" "2026-10-10" "teacher" "hello"
      demoCtx 5 emptyStore).2.1 = some JsError.notFound ∧
    (saveComment "school_001" "plan1" "2026-10-10" "teacher" "hello"
      demoCtx 5 emptyStore).1.days "plan1" "2026-10-10" = none ∧
    (saveComment "school_001" "plan1" "2026-10-10" "teacher" "hello"
      demoCtx 5 emptyStore).1.auditLog = [] := by
  refine ⟨rfl, rfl, rfl⟩

/-- C4 (amended): day documents are created lazily on first write by
recordCell and logIncident, whose merge writes create the addressed Day
when absent; recordComment instead requires the Day to exist — its update
write rejects with not-found on an absent Day and has no effect. -/
theorem c4_lazy_creation_amended
    (schoolId planId dayKey periodId goalId role text source : String)
    (value : CellValue) (button : ButtonDesc) (note : Option String)
    (ctx : AuditCtx) (now : Nat) (r : ℚ) (s : Store)
    (habs : s.days planId dayKey = none) :
    ((saveMatrixCell schoolId planId dayKey periodId goalId value ctx now s).1.days
        planId dayKey).isSome = true ∧
    ((logCustomIncident schoolId planId dayKey button note source ctx now r s).1.days
        planId dayKey).isSome = true ∧
    saveComment schoolId planId dayKey role text ctx now s =
      (s, some JsError.notFound, []) := by
  refine ⟨?_, ?_, ?_⟩
  · rw [(saveMatrixCell_run schoolId planId dayKey periodId goalId value
      ctx now s).2]
    rfl
  · simp [logCustomIncident, putDay_same]
  · simp [saveComment, habs]

/-- Witness for C4 (amended) at the empty store. -/
theorem c4_lazy_creation_amended_witness :
    ((saveMatrixCell "school_001" "plan1" "2026-10-10" "A1" "goal_1"
      (.num 2) demoCtx 5 emptyStore).1.days "plan1" "2026-10-10").isSome = true ∧
    ((logCustomIncident "school_001" "plan1" "2026-10-10" demoButton none
      "teacher" demoCtx 5 0 emptyStore).1.days "plan1" "2026-10-10").isSome = true ∧
    saveComment "school_001" "plan1" "2026-10-10" "teacher" "hello" demoCtx 5
      emptyStore = (emptyStore, some JsError.notFound, []) :=
  c4_lazy_creation_amended "school_001" "plan1" "2026-10-10" "A1" "goal_1"
    "teacher" "hello" "teacher" (.num 2) demoButton none demoCtx 5 0
    emptyStore rfl

/-- C5: replaying recordCell or recordComment with identical arguments is
a no-op on the scorable day state (matrix, comments and totals after the
replay equal their values after the first invocation), while replaying
logIncident appends a second incident record equal to the first, so the
incident list grows by one duplicate per replay. -/
theorem c5_replay_idempotence
    (schoolId planId dayKey periodId goalId role text source : String)
    (value : CellValue) (button : ButtonDesc) (note : Option String)
    (ctx : AuditCtx) (now : Nat) (r : ℚ) (s : Store) :
    (dayScoreState (saveMatrixCell schoolId planId dayKey periodId goalId value
        ctx now
        (saveMatrixCell schoolId planId dayKey periodId goalId value ctx now s).1).1
        planId dayKey =
      dayScoreState
        (saveMatrixCell schoolId planId dayKey periodId goalId value ctx now s).1
        planId dayKey) ∧
    (dayScoreState (saveComment schoolId planId dayKey role text ctx now
        (saveComment schoolId planId dayKey role text ctx now s).1).1
        planId dayKey =
      dayScoreState
        (saveComment schoolId planId dayKey role text ctx now s).1
        planId dayKey) ∧
    (incidentsOf
        (logCustomIncident schoolId planId dayKey button note source ctx now r s).1
        planId dayKey =
      incidentsOf s planId dayKey ++ [mkIncident button note source now r] ∧
     incidentsOf
        (logCustomIncident schoolId planId dayKey button note source ctx now r
          (logCustomIncident schoolId planId dayKey button note source ctx now r s).1).1
        planId dayKey =
      incidentsOf s planId dayKey ++
        [mkIncident button note source now r, mkIncident button note source now r]) := by
  refine ⟨?_, ?_, ?_, ?_⟩
  · obtain ⟨hpl1, hdy1⟩ :=
      saveMatrixCell_run schoolId planId dayKey periodId goalId value ctx now s
    obtain ⟨hpl2, hdy2⟩ :=
      saveMatrixCell_run schoolId planId dayKey periodId goalId value ctx now
        (saveMatrixCell schoolId planId dayKey periodId goalId value ctx now s).1
    unfold dayScoreState
    rw [hdy2, hpl1, hdy1, cellWriteDay_idem]
  · cases hd : s.days planId dayKey with
    | none => simp [saveComment, hd]
    | some d =>
      by_cases hrole : role = "teacher"
      · simp [saveComment, hd, hrole, putDay_same, dayScoreState]
      · have hcomm : (fun rq => if rq = role then some text
            else if rq = role then some text else d.comments.specials rq) =
            (fun rq => if rq = role then some text else d.comments.specials rq) := by
          funext rq
          by_cases hrq : rq = role <;> simp [hrq]
        simp [saveComment, hd, hrole, putDay_same, dayScoreState, hcomm]
  · cases hd : s.days planId dayKey with
    | none => simp [logCustomIncident, hd, putDay_same, incidentsOf]
    | some d => simp [logCustomIncident, hd, putDay_same, incidentsOf]
  · cases hd : s.days planId dayKey with
    | none => simp [logCustomIncident, hd, putDay_same, incidentsOf]
    | some d => simp [logCustomIncident, hd, putDay_same, incidentsOf]

/-- C6 counterexample: a caller who lacks the admin role is not always
rejected — an authenticated caller whose token has no roles claim at all
passes the first-admin bootstrap branch, and the call succeeds and mutates
the custom claims of the target user. -/
theorem c6_counterexample :
    (setCustomClaims (some { roles := none })
      { uid := "u1", roles := some ["teacher"], schoolId := "school_001" }
      5 demoFnState).2 = .ok "Claims updated successfully" ∧
    (setCustomClaims (some { roles := none })
      { uid := "u1", roles := some ["teacher"], schoolId := "school_001" }
      5 demoFnState).1.userClaims "u1" = some (["teacher"], "school_001") ∧
    demoFnState.userClaims "u1" = none := by
  refine ⟨rfl, ?_, rfl⟩
  simp [setCustomClaims, demoFnState]

/-- C6 (amended): a call to setCustomClaims by an authenticated caller
whose token carries a roles claim that does not include admin is rejected
with permission-denied before any mutation, so neither the custom claims
nor the staff documents change; only a caller whose token has no roles
claim at all (first-admin bootstrap) may pass without the admin role. -/
theorem c6_nonadmin_rejected_without_mutation (tok : CallerToken)
    (rs : List String) (data : ClaimsData) (now : Nat) (s : FnState)
    (hroles : tok.roles = some rs) (hnadmin : rs.contains "admin" = false) :
    setCustomClaims (some tok) data now s =
      (s, .error HttpsErrorCode.permissionDenied) := by
  simp only [setCustomClaims, hroles, hnadmin]
  rfl

/-- Witness for C6 (amended): a teacher-role caller is rejected and the
state is returned untouched. -/
theorem c6_nonadmin_rejected_without_mutation_witness :
    setCustomClaims (some { roles := some ["teacher"] })
      { uid := "u1", roles := some ["teacher"], schoolId := "school_001" }
      5 demoFnState = (demoFnState, .error HttpsErrorCode.permissionDenied) :=
  c6_nonadmin_rejected_without_mutation { roles := some ["teacher"] }
    ["teacher"]
    { uid := "u1", roles := some ["teacher"], schoolId := "school_001" }
    5 demoFnState rfl (by decide)

/-- C7: the comment_save audit entry records only the length of the text:
two recordComment invocations from the same state that differ only in the
comment text, with equal text lengths, leave identical audit logs (in
particular identical detail payloads). -/
theorem c7_comment_audit_length_only
    (schoolId planId dayKey role t1 t2 : String) (ctx : AuditCtx) (now : Nat)
    (s : Store) (hlen : t1.length = t2.length) :
    (saveComment schoolId planId dayKey role t1 ctx now s).1.auditLog =
      (saveComment schoolId planId dayKey role t2 ctx now s).1.auditLog := by
  cases hd : s.days planId dayKey with
  | none => simp [saveComment, hd]
  | some d => simp [saveComment, hd, hlen]

/-- Witness for C7 on two different five-character comments. -/
theorem c7_comment_audit_length_only_witness :
    (saveComment "school_001" "plan1" "2026-10-10" "teacher" "hello"
      demoCtx 5 demoStore).1.auditLog =
      (saveComment "school_001" "plan1" "2026-10-10" "teacher" "world"
        demoCtx 5 demoStore).1.auditLog :=
  c7_comment_audit_length_only "school_001" "plan1" "2026-10-10" "teacher"
    "hello" "world" demoCtx 5 demoStore rfl

/-- C8: the audit context records both identities distinctly: under
impersonation, actedBy is the real user id while asUserId and asRole are
the impersonated id and role, so actedBy and asUserId can differ and are
never collapsed; without impersonation both equal the real user id. -/
theorem c8_impersonation_audit_fields (user : UserRec)
    (claims : Option ClaimsRec) :
    (∀ im : ImitationState,
      getAuditContext user claims (some im) =
        { actedBy := user.uid, asRole := im.asRole, asUserId := im.targetUid }) ∧
    ((getAuditContext user claims none).actedBy = user.uid ∧
     (getAuditContext user claims none).asUserId = user.uid) ∧
    (∃ u : UserRec, ∃ c : Option ClaimsRec, ∃ im : ImitationState,
      (getAuditContext u c (some im)).actedBy ≠
        (getAuditContext u c (some im)).asUserId) := by
  refine ⟨fun im => rfl, ⟨rfl, rfl⟩,
    ⟨{ uid := "admin_1" }, none, { targetUid := "teacher_7", asRole := "teacher" }, ?_⟩⟩
  simp [getAuditContext]

/-- C9 counterexample: the random suffix of an incident id is not always
at least 7 base-36 characters — for the random draw 1/2 the JS value
0.5.toString(36) is "0.i", whose substr(2, 9) is the single character i,
so the id inc_123_i has a one-character random suffix. -/
theorem c9_counterexample :
    (mkRat 1 2 : ℚ) = 1/2 ∧
    incidentId 123 (mkRat 1 2) = "inc_123_i" ∧
    (incidentSuffix (mkRat 1 2)).length = 1 := by
  refine ⟨by norm_num, by decide, by decide⟩

/-- C9 (amended): for every time value and every draw of the random
source in [0, 1), the incident id is inc_ then the decimal time, an
underscore, and a random suffix of at most 9 (not at least 7) base-36
characters — possibly fewer, down to the empty suffix for draw 0. -/
theorem c9_incident_id_shape (now : Nat) (r : ℚ) (h0 : 0 ≤ r) (h1 : r < 1) :
    incidentId now r = "inc_" ++ toString now ++ "_" ++ incidentSuffix r ∧
    (incidentSuffix r).length ≤ 9 ∧
    (incidentSuffix r).toList.all isBase36Digit = true := by
  exact ⟨rfl, incidentSuffix_length_le r, incidentSuffix_digits r h0 h1⟩

/-- Witness for C9 (amended) at time 123 and draw 1/2. -/
theorem c9_incident_id_shape_witness :
    incidentId 123 (1/2 : ℚ) =
      "inc_" ++ toString (123 : Nat) ++ "_" ++ incidentSuffix (1/2 : ℚ) ∧
    (incidentSuffix (1/2 : ℚ)).length ≤ 9 ∧
    (incidentSuffix (1/2 : ℚ)).toList.all isBase36Digit = true :=
  c9_incident_id_shape 123 (1/2 : ℚ) (by norm_num) (by norm_num)

/-- Witness for C2 at the demo AM/PM plan and the demo plan without the
tag. -/
theorem c2_ampm_partition_witness :
    (∃ t : Totals, computeTotals demoPlan demoMatrix = .ok t ∧
        t.pct = pctFrom (specEarned demoPlan.schedule demoPlan.goals demoMatrix)
          (specPossible demoPlan.schedule demoPlan.goals demoMatrix) ∧
        t.amPct = some (pctFrom
          (specEarned (demoPlan.schedule.filter fun p => p.am) demoPlan.goals demoMatrix)
          (specPossible (demoPlan.schedule.filter fun p => p.am) demoPlan.goals demoMatrix)) ∧
        t.pmPct = some (pctFrom
          (specEarned (demoPlan.schedule.filter fun p => !p.am) demoPlan.goals demoMatrix)
          (specPossible (demoPlan.schedule.filter fun p => !p.am) demoPlan.goals demoMatrix))) ∧
    (∃ t : Totals, computeTotals demoPlanPct demoMatrix = .ok t ∧
        t.amPct = none ∧ t.pmPct = none) :=
  ⟨(c2_ampm_partition demoPlan demoMatrix "PercentageAMPM" rfl).1 (by decide),
   (c2_ampm_partition demoPlanPct demoMatrix "Percentage" rfl).2 (by decide)⟩

end Riley



